import Mathlib

/-!
Verification development for the ecocivic municipality backend
(recycling declarations, fraud appeals, reward ledger, consumption guard,
physical inspections).

The Python services are shallowly embedded: SQLAlchemy rows become Lean
structures, the session becomes an explicit `Db` value threaded through each
operation, Python `float` arithmetic is modelled over `Rat` (every concrete
input used below is exactly representable in binary floating point, so the
comparisons coincide), Python `int()` truncation becomes `pyInt`, and calls
to external capabilities (blockchain mint / penalty) become `Except`-valued
parameters.  The `web3` library functions used by `utils.py`
(`Web3.is_address`, `Web3.to_checksum_address`) are modelled by a full
EIP-55 implementation over an executable Keccak-256.
-/

set_option maxRecDepth 100000

namespace EcoCivic

/-! ### Python string/number primitives -/

/-- ASCII lowering of a single character (models `str.lower` on the ASCII
addresses handled by the backend). -/
def toLowerChar (c : Char) : Char :=
  if 65 ≤ c.toNat ∧ c.toNat ≤ 90 then Char.ofNat (c.toNat + 32) else c

/-- Models Python `str.lower()` on ASCII strings (wallet addresses). -/
def pyLower (s : String) : String := String.mk (s.toList.map toLowerChar)

/-- Models Python `int(x)` on a numeric value: truncation toward zero. -/
def pyInt (q : Rat) : Int := q.num.tdiv q.den

/-! ### Keccak-256 (models the hash used by `Web3.to_checksum_address`) -/

/-- Left rotation of a 64-bit lane. -/
def rotl64 (v n : Nat) : Nat :=
  ((v <<< (n % 64)) ||| (v >>> (64 - n % 64))) % (2 ^ 64)

/-- One step of the byte-wide LFSR of FIPS 202 (polynomial
x^8 + x^6 + x^5 + x^4 + 1, i.e. feedback mask 0x71). -/
def lfsrNext (r : Nat) : Nat :=
  if 128 ≤ r % 256 then ((r * 2) ^^^ 0x71) % 256 else (r * 2) % 256

/-- One Keccak round constant assembled from seven successive LFSR output
bits placed at bit positions 2^j - 1; returns the advanced register too. -/
def rcOne (r : Nat) : Nat × Nat :=
  (List.range 7).foldl
    (fun p j =>
      (if p.2 % 2 = 1 then p.1 ^^^ (1 <<< (2 ^ j - 1)) else p.1, lfsrNext p.2))
    (0, r)

/-- The 24 Keccak round constants, derived from the LFSR with initial
register 1 (FIPS 202, Algorithm 5). -/
def keccakRC : List Nat :=
  ((List.range 24).foldl
    (fun st _ =>
      let q := rcOne st.2
      (st.1 ++ [q.1], q.2))
    (([] : List Nat), 1)).1

/-- Keccak rotation offsets, laid out as `offset[5*x + y]`. -/
def keccakRot : List Nat :=
  [0, 36, 3, 41, 18,
   1, 44, 10, 45, 2,
   62, 6, 43, 15, 61,
   28, 55, 25, 21, 56,
   27, 20, 39, 8, 14]

/-- Keccak state: 25 lanes of 64 bits, flattened as index `x + 5*y`. -/
abbrev KState := List Nat

/-- Lane accessor on the flattened state. -/
def kget (A : KState) (x y : Nat) : Nat := A.getD ((x % 5) + 5 * (y % 5)) 0

/-- One Keccak-f[1600] round (theta, rho, pi, chi, iota). -/
def keccakRound (A : KState) (rc : Nat) : KState :=
  let C := (List.range 5).map fun x =>
    kget A x 0 ^^^ kget A x 1 ^^^ kget A x 2 ^^^ kget A x 3 ^^^ kget A x 4
  let D := (List.range 5).map fun x =>
    C.getD ((x + 4) % 5) 0 ^^^ rotl64 (C.getD ((x + 1) % 5) 0) 1
  let Ath := (List.range 25).map fun i =>
    A.getD i 0 ^^^ D.getD (i % 5) 0
  let B := (List.range 25).map fun j =>
    let xp := j % 5
    let yp := j / 5
    let y := xp
    let x := (xp + 3 * yp) % 5
    rotl64 (Ath.getD (x + 5 * y) 0) (keccakRot.getD (5 * x + y) 0)
  let Achi := (List.range 25).map fun j =>
    let x := j % 5
    let y := j / 5
    let bxy := B.getD (x + 5 * y) 0
    let bx1 := B.getD ((x + 1) % 5 + 5 * y) 0
    let bx2 := B.getD ((x + 2) % 5 + 5 * y) 0
    bxy ^^^ (((2 ^ 64 - 1) - bx1) &&& bx2)
  match Achi with
  | a00 :: rest => (a00 ^^^ rc) :: rest
  | [] => []

/-- The full Keccak-f[1600] permutation: 24 rounds. -/
def keccakF (A : KState) : KState := keccakRC.foldl keccakRound A

/-- Original Keccak multi-rate padding (0x01 domain byte), rate 136 bytes. -/
def padKeccak (msg : List Nat) : List Nat :=
  let rate := 136
  let padLen := rate - msg.length % rate
  if padLen = 1 then msg ++ [0x81]
  else msg ++ [0x01] ++ List.replicate (padLen - 2) 0 ++ [0x80]

/-- Little-endian bytes to a 64-bit lane. -/
def bytesToLane (bs : List Nat) : Nat :=
  bs.foldr (fun b acc => acc * 256 + b % 256) 0

/-- A 64-bit lane to little-endian bytes. -/
def laneToBytes (v : Nat) : List Nat :=
  (List.range 8).map fun i => (v >>> (8 * i)) % 256

/-- Absorb one 136-byte block into the state and permute. -/
def absorbBlock (A : KState) (block : List Nat) : KState :=
  let lanes := (List.range 17).map fun i => bytesToLane ((block.drop (8 * i)).take 8)
  keccakF ((List.range 25).map fun i =>
    A.getD i 0 ^^^ (if i < 17 then lanes.getD i 0 else 0))

/-- Keccak-256 of a byte sequence (the pre-SHA3 variant used by Ethereum). -/
def keccak256 (msg : List Nat) : List Nat :=
  let p := padKeccak msg
  let blocks := (List.range (p.length / 136)).map fun i => ((p.drop (136 * i)).take 136)
  let A := blocks.foldl absorbBlock (List.replicate 25 0)
  ((List.range 4).map fun i => laneToBytes (A.getD i 0)).flatten

/-! ### EIP-55 checksumming (models `web3`-library address handling) -/

/-- Hex-digit test covering both cases. -/
def isHexDigitChar (c : Char) : Bool :=
  (48 ≤ c.toNat && c.toNat ≤ 57) || (97 ≤ c.toNat && c.toNat ≤ 102) ||
    (65 ≤ c.toNat && c.toNat ≤ 70)

/-- Uppercase ASCII letter test. -/
def isUpperAlpha (c : Char) : Bool := 65 ≤ c.toNat && c.toNat ≤ 90

/-- Lowercase ASCII letter test. -/
def isLowerAlpha (c : Char) : Bool := 97 ≤ c.toNat && c.toNat ≤ 122

/-- Basic shape of a hex address: `0x` followed by 40 hex digits. -/
def isHexAddress (s : String) : Bool :=
  s.length = 42 && (s.toList.take 2 = ['0', 'x']) && (s.toList.drop 2).all isHexDigitChar

/-- EIP-55 checksummed rendering of an address (models
`Web3.to_checksum_address`): the address body is lowercased, hashed with
Keccak-256, and each alphabetic hex digit is uppercased exactly when the
corresponding hash nibble is at least 8. -/
def toChecksumAddress (s : String) : String :=
  let body := (s.toList.drop 2).map toLowerChar
  let digest := keccak256 (body.map Char.toNat)
  let nibbles := digest.flatMap fun b => [b / 16, b % 16]
  String.mk ('0' :: 'x' ::
    ((List.range body.length).map fun i =>
      let c := body.getD i ' '
      if 97 ≤ c.toNat ∧ c.toNat ≤ 102 ∧ 8 ≤ nibbles.getD i 0 then
        Char.ofNat (c.toNat - 32)
      else c))

/-- Models `Web3.is_address`: a hex address that is all-lowercase,
all-uppercase, or correctly EIP-55 checksummed. -/
def web3IsAddress (s : String) : Bool :=
  isHexAddress s &&
    (let body := s.toList.drop 2
     if body.all (fun c => !(isUpperAlpha c)) then true
     else if body.all (fun c => !(isLowerAlpha c)) then true
     else toChecksumAddress s == s)

/-! ### utils.py -/

/-- Embeds `utils.validate_wallet_address`. -/
def validate_wallet_address (address : String) : Bool := web3IsAddress address

/-- Embeds `utils.normalize_wallet_address`: `None` on invalid input,
otherwise the checksummed address. -/
def normalize_wallet_address (address : String) : Option String :=
  if validate_wallet_address address then some (toChecksumAddress address) else none

/-! ### Data model (database/models.py, the columns the claims touch)

`User`, `RecyclingDeclaration` and `FraudAppeal` rows keep the columns the
claims are about; audit-only columns (timestamps, notes, hashes) and the
notification table are omitted.  The session becomes an explicit `Db`
value; SQLAlchemy `.first()` becomes `List.find?` and mutation of the found
row becomes first-match replacement. -/

structure UserRow where
  wallet_address : String
  recycling_fraud_warnings_remaining : Int
  is_recycling_blacklisted : Bool
  pending_reward_balance : Int
deriving DecidableEq

structure Declaration where
  id : Nat
  wallet_address : String
  plastic_kg : Rat
  glass_kg : Rat
  metal_kg : Rat
  paper_kg : Rat
  electronic_count : Int
  qr_token_id : String
  is_qr_expired : Bool
  is_qr_used : Bool
  total_reward_amount : Int
  admin_approval_status : String
  admin_approved_by : String
  is_fraud : Bool
  fraud_reason : String
deriving DecidableEq

structure AppealRow where
  id : Nat
  declaration_id : Nat
  citizen_wallet : String
  staff_wallet : String
  reason : String
  status : String
  admin_wallet : String
deriving DecidableEq

structure Db where
  users : List UserRow
  declarations : List Declaration
  appeals : List AppealRow
deriving DecidableEq

/-- SQLAlchemy `query(User).filter(wallet_address == w).first()`. -/
def find_user (users : List UserRow) (w : String) : Option UserRow :=
  users.find? fun u => u.wallet_address == w

/-- Mutation of the first user row matching `w` (the row `.first()` found). -/
def update_user (users : List UserRow) (w : String) (f : UserRow → UserRow) :
    List UserRow :=
  match users with
  | [] => []
  | u :: rest =>
      if u.wallet_address == w then f u :: rest else u :: update_user rest w f

/-- SQLAlchemy `query(RecyclingDeclaration).filter(id == i).first()`. -/
def find_decl (ds : List Declaration) (i : Nat) : Option Declaration :=
  ds.find? fun d => d.id == i

/-- Mutation of the first declaration row with id `i`. -/
def update_decl (ds : List Declaration) (i : Nat) (f : Declaration → Declaration) :
    List Declaration :=
  match ds with
  | [] => []
  | d :: rest => if d.id == i then f d :: rest else d :: update_decl rest i f

/-- SQLAlchemy `query(RecyclingDeclaration).filter(qr_token_id == t).first()`. -/
def find_decl_by_token (ds : List Declaration) (t : String) : Option Declaration :=
  ds.find? fun d => d.qr_token_id == t

/-- Mutation of the first declaration row with QR token `t`. -/
def update_decl_by_token (ds : List Declaration) (t : String)
    (f : Declaration → Declaration) : List Declaration :=
  match ds with
  | [] => []
  | d :: rest =>
      if d.qr_token_id == t then f d :: rest else d :: update_decl_by_token rest t f

/-- SQLAlchemy `query(FraudAppeal).filter(id == i).first()`. -/
def find_appeal (as_ : List AppealRow) (i : Nat) : Option AppealRow :=
  as_.find? fun a => a.id == i

/-- Mutation of the first appeal row with id `i`. -/
def update_appeal (as_ : List AppealRow) (i : Nat) (f : AppealRow → AppealRow) :
    List AppealRow :=
  match as_ with
  | [] => []
  | a :: rest => if a.id == i then f a :: rest else a :: update_appeal rest i f

/-! ### services/recycling_declaration_service.py -/

/-- Reward rate table `REWARD_RATES` (BELT per kg, or per item for
electronics). -/
def REWARD_RATES (t : String) : Rat :=
  if t == "plastic" then 10
  else if t == "glass" then 12
  else if t == "metal" then 15
  else if t == "paper" then 8
  else if t == "electronic" then 25
  else 0

/-- Result shape shared by the service endpoints that report only
success/failure plus the affected wallet. -/
structure SimpleResult where
  success : Bool
  message : String
  wallet_address : String
deriving DecidableEq

/-- Embeds `RecyclingDeclarationService.create_declaration`.  The QR token
id and the fresh row id are injected (the source draws them from `secrets`
and the database sequence); timestamp columns are omitted.  Python
`raise ValueError` becomes `Except.error`. -/
def create_declaration (db : Db) (wallet_address : String)
    (plastic_kg glass_kg metal_kg paper_kg : Rat) (electronic_count : Int)
    (token_id : String) (new_id : Nat) : Except String (Db × Int) :=
  let w := pyLower wallet_address
  if (find_user db.users w).any
      (fun u => decide (u.recycling_fraud_warnings_remaining ≤ 0)) then
    .error "Beyan olusturma hakkiniz kalmadi. Lutfen belediye ile gorusun."
  else if plastic_kg ≤ 0 ∧ glass_kg ≤ 0 ∧ metal_kg ≤ 0 ∧ paper_kg ≤ 0 ∧
      electronic_count ≤ 0 then
    .error "En az bir atik turu icin miktar girmelisiniz"
  else if plastic_kg > 100 ∨ glass_kg > 100 ∨ metal_kg > 100 ∨ paper_kg > 100 ∨
      electronic_count > 20 then
    .error "Maksimum miktarlar: 100 kg veya 20 adet"
  else
    let total_reward : Rat :=
      plastic_kg * REWARD_RATES "plastic" +
      glass_kg * REWARD_RATES "glass" +
      metal_kg * REWARD_RATES "metal" +
      paper_kg * REWARD_RATES "paper" +
      (electronic_count : Rat) * REWARD_RATES "electronic"
    let d : Declaration :=
      { id := new_id
        wallet_address := w
        plastic_kg := plastic_kg
        glass_kg := glass_kg
        metal_kg := metal_kg
        paper_kg := paper_kg
        electronic_count := electronic_count
        qr_token_id := token_id
        is_qr_expired := false
        is_qr_used := false
        total_reward_amount := pyInt total_reward
        admin_approval_status := "pending"
        admin_approved_by := ""
        is_fraud := false
        fraud_reason := "" }
    .ok ({ db with declarations := db.declarations ++ [d] }, pyInt total_reward)

/-- Result of `approve_declaration`. -/
structure ApproveResult where
  success : Bool
  message : String
  reward_amount : Int
  wallet_address : String
  new_pending_balance : Int
deriving DecidableEq

/-- Embeds `RecyclingDeclarationService.approve_declaration`: only a
`pending` declaration is approved; the QR is marked used and the reward is
added to the owning user's `pending_reward_balance` when that user row
exists. -/
def approve_declaration (db : Db) (declaration_id : Nat) (admin_wallet : String) :
    ApproveResult × Db :=
  match find_decl db.declarations declaration_id with
  | none =>
      ({ success := false, message := "Beyan bulunamadi", reward_amount := 0,
         wallet_address := "", new_pending_balance := 0 }, db)
  | some d =>
      if d.admin_approval_status ≠ "pending" then
        ({ success := false, message := "Bu beyan zaten islenmis", reward_amount := 0,
           wallet_address := "", new_pending_balance := 0 }, db)
      else
        let ds := update_decl db.declarations declaration_id fun x =>
          { x with admin_approval_status := "approved",
                   admin_approved_by := admin_wallet,
                   is_qr_used := true }
        match find_user db.users d.wallet_address with
        | some u =>
            ({ success := true,
               message := "Beyan onaylandi ve odul birikmis bakiyeye eklendi",
               reward_amount := d.total_reward_amount,
               wallet_address := d.wallet_address,
               new_pending_balance := u.pending_reward_balance + d.total_reward_amount },
             { db with declarations := ds,
                       users := update_user db.users d.wallet_address fun x =>
                         { x with pending_reward_balance :=
                             x.pending_reward_balance + d.total_reward_amount } })
        | none =>
            ({ success := true,
               message := "Beyan onaylandi ve odul birikmis bakiyeye eklendi",
               reward_amount := d.total_reward_amount,
               wallet_address := d.wallet_address,
               new_pending_balance := 0 },
             { db with declarations := ds })

/-- Embeds `RecyclingDeclarationService.mark_fraud`: any found declaration is
marked fraud, with no check of its current state; warnings are deliberately
not decremented here (the admin decision does that later). -/
def mark_fraud (db : Db) (declaration_id : Nat) (admin_wallet reason : String) :
    SimpleResult × Db :=
  match find_decl db.declarations declaration_id with
  | none =>
      ({ success := false, message := "Beyan bulunamadi", wallet_address := "" }, db)
  | some d =>
      ({ success := true,
         message := "Beyan fraud olarak isaretlendi ve yonetici onayina gonderildi",
         wallet_address := d.wallet_address },
       { db with declarations := update_decl db.declarations declaration_id fun x =>
           { x with admin_approval_status := "fraud",
                    admin_approved_by := admin_wallet,
                    is_fraud := true,
                    fraud_reason :=
                      if reason == "" then
                        "Personel tarafindan fraud olarak isaretlendi"
                      else reason } })

/-- Embeds `RecyclingDeclarationService.expire_qr`: any declaration found by
QR token id is flipped to expired, with no check of its current state. -/
def expire_qr (db : Db) (qr_token_id : String) : SimpleResult × Db :=
  match find_decl_by_token db.declarations qr_token_id with
  | none => ({ success := false, message := "QR bulunamadi", wallet_address := "" }, db)
  | some _ =>
      let ds := update_decl_by_token db.declarations qr_token_id fun x =>
        { x with is_qr_expired := true, admin_approval_status := "expired" }
      ({ success := true, message := "QR suresi doldu", wallet_address := "" },
       { db with declarations := ds })

/-! ### app.py recycling routes -/

/-- Embeds the route `POST /api/recycling/declarations/(id)/fraud`
(`mark_declaration_fraud` in app.py): it calls the service `mark_fraud` and,
on success, records a pending `FraudAppeal` for the declaration.  The fresh
appeal id is injected. -/
def mark_declaration_fraud_route (db : Db) (declaration_id : Nat)
    (staff_wallet reason : String) (new_appeal_id : Nat) : SimpleResult × Db :=
  let (r, db1) := mark_fraud db declaration_id staff_wallet reason
  if r.success then
    let citizen :=
      match find_decl db1.declarations declaration_id with
      | some d => d.wallet_address
      | none => "unknown"
    (r, { db1 with appeals := db1.appeals ++
      [{ id := new_appeal_id, declaration_id := declaration_id,
         citizen_wallet := citizen, staff_wallet := staff_wallet,
         reason := reason, status := "pending", admin_wallet := "" }] })
  else (r, db1)

/-- Embeds the route `POST /api/recycling/reject/(id)` (`reject_declaration`
in app.py): only a `pending` declaration may be rejected. -/
def reject_declaration (db : Db) (declaration_id : Nat)
    (staff_wallet _reason : String) : SimpleResult × Db :=
  match find_decl db.declarations declaration_id with
  | none => ({ success := false, message := "Beyan bulunamadi", wallet_address := "" }, db)
  | some d =>
      if d.admin_approval_status ≠ "pending" then
        ({ success := false, message := "Beyan zaten islenmis", wallet_address := "" }, db)
      else
        ({ success := true, message := "Beyan reddedildi", wallet_address := d.wallet_address },
         { db with declarations := update_decl db.declarations declaration_id fun x =>
             { x with admin_approval_status := "rejected",
                      admin_approved_by := staff_wallet } })

/-! ### services/admin_routes.py, appeal resolution -/

/-- Warning restore used by the approve branch of `decide_fraud_appeal`:
increment only below the cap of 2. -/
def restore_warning (u : UserRow) : UserRow :=
  if u.recycling_fraud_warnings_remaining < 2 then
    { u with recycling_fraud_warnings_remaining :=
        u.recycling_fraud_warnings_remaining + 1 }
  else u

/-- Reward accrual used by the approve branch of `decide_fraud_appeal`:
credit the pending balance when the reward is positive. -/
def credit_reward (amount : Int) (u : UserRow) : UserRow :=
  if amount > 0 then
    { u with pending_reward_balance := u.pending_reward_balance + amount }
  else u

/-- Warning decrement and blacklist flip used by the reject branch of
`decide_fraud_appeal`: decrement with floor 0, then set the blacklist flag
whenever no warnings remain.  The flag is only ever set here, never
cleared. -/
def decrement_warning_and_flag (u : UserRow) : UserRow :=
  let u1 :=
    if u.recycling_fraud_warnings_remaining > 0 then
      { u with recycling_fraud_warnings_remaining :=
          u.recycling_fraud_warnings_remaining - 1 }
    else u
  if u1.recycling_fraud_warnings_remaining ≤ 0 then
    { u1 with is_recycling_blacklisted := true }
  else u1

/-- Fresh user row created by the reject branch when the citizen wallet has
no row yet (`User(wallet_address=..., recycling_fraud_warnings_remaining=2)`
plus the model defaults). -/
def fresh_user (w : String) : UserRow :=
  { wallet_address := w, recycling_fraud_warnings_remaining := 2,
    is_recycling_blacklisted := false, pending_reward_balance := 0 }

/-- Result of `decide_fraud_appeal`. -/
structure DecideResult where
  success : Bool
  status_code : Nat
  decision : String
  message : String
  penalty_kind : String
  penalty_tx : Option String
deriving DecidableEq

/-- Embeds `admin_routes.decide_fraud_appeal`.  The external penalty call is
injected as `penaltyOutcome` (its failure is logged and ignored).  In the
approve branch the citizen wallet is checksummed before the user lookup; a
missing user silently skips both the warning restore and the reward credit.
In the reject branch a missing user row is created first.  In either branch
a citizen wallet rejected by `normalize_wallet_address` makes the branch's
user or notification insert violate a NOT NULL column, so the whole
transaction rolls back into a 500 error. -/
def decide_fraud_appeal (db : Db) (appeal_id : Nat) (decision admin_wallet : String)
    (penaltyOutcome : Except String String) : DecideResult × Db :=
  if decision ≠ "approve" ∧ decision ≠ "reject" then
    ({ success := false, status_code := 400, decision := decision,
       message := "decision approve veya reject olmali", penalty_kind := "",
       penalty_tx := none }, db)
  else
    match find_appeal db.appeals appeal_id with
    | none =>
        ({ success := false, status_code := 404, decision := decision,
           message := "Appeal bulunamadi", penalty_kind := "", penalty_tx := none }, db)
    | some ap =>
        if ap.status ≠ "pending" then
          ({ success := false, status_code := 400, decision := decision,
             message := "Appeal zaten islenmis", penalty_kind := "",
             penalty_tx := none }, db)
        else
          let declOpt := find_decl db.declarations ap.declaration_id
          if decision == "approve" then
            match normalize_wallet_address ap.citizen_wallet with
            | none =>
                ({ success := false, status_code := 500, decision := decision,
                   message := "Karar verilemedi", penalty_kind := "",
                   penalty_tx := none }, db)
            | some nw =>
                let as1 := update_appeal db.appeals appeal_id fun a =>
                  { a with status := "approved", admin_wallet := admin_wallet }
                let ds1 :=
                  match declOpt with
                  | some _ =>
                      update_decl db.declarations ap.declaration_id fun x =>
                        { x with admin_approval_status := "approved", is_fraud := false }
                  | none => db.declarations
                let reward_amount : Int :=
                  match declOpt with
                  | some d => d.total_reward_amount
                  | none => 0
                let users1 :=
                  match find_user db.users nw with
                  | none => db.users
                  | some _ =>
                      update_user db.users nw fun u =>
                        credit_reward reward_amount (restore_warning u)
                ({ success := true, status_code := 200, decision := decision,
                   message := "Itiraz kabul edildi", penalty_kind := "",
                   penalty_tx := none },
                 { users := users1, declarations := ds1, appeals := as1 })
          else
            match normalize_wallet_address ap.citizen_wallet with
            | none =>
                ({ success := false, status_code := 500, decision := decision,
                   message := "Karar verilemedi", penalty_kind := "",
                   penalty_tx := none }, db)
            | some nw =>
                let as1 := update_appeal db.appeals appeal_id fun a =>
                  { a with status := "rejected", admin_wallet := admin_wallet }
                let users1 :=
                  match find_user db.users nw with
                  | some _ => update_user db.users nw decrement_warning_and_flag
                  | none => db.users ++ [decrement_warning_and_flag (fresh_user nw)]
                let after :=
                  decrement_warning_and_flag
                    ((find_user db.users nw).getD (fresh_user nw))
                let is_blacklisted := after.is_recycling_blacklisted
                ({ success := true, status_code := 200, decision := decision,
                   message := "Itiraz reddedildi",
                   penalty_kind := if is_blacklisted then "full_slash" else "partial_25",
                   penalty_tx :=
                     match penaltyOutcome with
                     | .ok tx => some tx
                     | .error _ => none },
                 { users := users1, declarations := db.declarations, appeals := as1 })

/-! ### services/wallet_routes.py -/

/-- Result of `claim_rewards`. -/
structure ClaimResult where
  success : Bool
  status_code : Nat
  claimed_amount : Int
  tx_hash : Option String
  message : String
deriving DecidableEq

/-- Embeds `wallet_routes.claim_rewards`.  The wallet is checksummed before
the user lookup; the external BELT mint is injected as `mintOutcome`.  The
pending balance is zeroed only on the success branch, after the mint
returned; any mint failure surfaces as a 500 with the session rolled
back. -/
def claim_rewards (db : Db) (wallet_address : String)
    (mintOutcome : Except String String) : ClaimResult × Db :=
  let userOpt :=
    match normalize_wallet_address wallet_address with
    | none => none
    | some nw => find_user db.users nw
  match userOpt with
  | none =>
      ({ success := false, status_code := 404, claimed_amount := 0, tx_hash := none,
         message := "Kullanici bulunamadi" }, db)
  | some u =>
      if u.pending_reward_balance ≤ 0 then
        ({ success := false, status_code := 400, claimed_amount := 0, tx_hash := none,
           message := "Transfer edilecek birikmis odul yok" }, db)
      else
        match mintOutcome with
        | .error _ =>
            ({ success := false, status_code := 500, claimed_amount := 0,
               tx_hash := none, message := "Blockchain transfer hatasi" }, db)
        | .ok tx =>
            ({ success := true, status_code := 200,
               claimed_amount := u.pending_reward_balance, tx_hash := some tx,
               message := "BELT cuzdaniniza transfer edildi" },
             { db with users := update_user db.users u.wallet_address fun x =>
                 { x with pending_reward_balance := 0 } })

/-! ### services/fraud_detection.py -/

/-- A `WaterMeterReading` row as seen by the consumption-drop check:
the meter index and the consumption recorded for that month. -/
structure Reading where
  reading_index : Int
  consumption_m3 : Rat
deriving DecidableEq, Inhabited

/-- Result of `check_consumption_drop`. -/
structure DropCheckResult where
  warning : Bool
  current_consumption : Int
  average_consumption : Rat
  drop_percent : Rat
  message : String
deriving DecidableEq

/-- Consumption drop threshold `CONSUMPTION_DROP_THRESHOLD = 0.50`. -/
def CONSUMPTION_DROP_THRESHOLD : Rat := 1 / 2

/-- The list comprehension `[r.consumption_m3 for r in previous_readings
if r.consumption_m3 > 0]` over the non-newest readings. -/
def guard_consumptions (readings : List Reading) : List Rat :=
  readings.tail.filterMap fun r =>
    if r.consumption_m3 > 0 then some r.consumption_m3 else none

/-- The mean of the positive prior deltas (`avg_consumption` in the
source). -/
def guard_avg (readings : List Reading) : Rat :=
  (guard_consumptions readings).sum / ((guard_consumptions readings).length : Rat)

/-- The current delta `current_reading - last_reading.reading_index`. -/
def guard_current (readings : List Reading) (current_reading : Int) : Int :=
  current_reading - readings.headI.reading_index

/-- Embeds `AnomalySignalService.check_consumption_drop`.  The database
fetch (readings of the last 180 days, newest first, at most 6) is supplied
as the `readings` argument; the decimal rounding `round(x, 1)` applied to
the reported percentage in the warning branch is kept exact here (the
warning condition itself never depends on it). -/
def check_consumption_drop (readings : List Reading) (current_reading : Int) :
    DropCheckResult :=
  if readings.length < 2 then
    { warning := false, current_consumption := 0, average_consumption := 0,
      drop_percent := 0, message := "Yeterli gecmis veri yok" }
  else
    let current_consumption := guard_current readings current_reading
    if guard_consumptions readings = [] then
      { warning := false, current_consumption := current_consumption,
        average_consumption := 0, drop_percent := 0,
        message := "Gecmis tuketim verisi bulunamadi" }
    else
      let avg_consumption := guard_avg readings
      if avg_consumption > 0 ∧
          (current_consumption : Rat) <
            avg_consumption * (1 - CONSUMPTION_DROP_THRESHOLD) then
        { warning := true, current_consumption := current_consumption,
          average_consumption := avg_consumption,
          drop_percent :=
            (avg_consumption - (current_consumption : Rat)) / avg_consumption * 100,
          message := "Tuketiminiz gecmis aylara gore dustu" }
      else
        { warning := false, current_consumption := current_consumption,
          average_consumption := avg_consumption, drop_percent := 0,
          message := "Normal tuketim araliginda" }

/-- An `AnomalySignal` row. -/
structure AnomalySignal where
  wallet_address : String
  signal_type : String
  details : String
  confidence : Rat
  status : String
  detected_by : String
deriving DecidableEq

/-- Embeds `AnomalySignalService.create_anomaly_signal`: it only appends a
`pending_review` signal row; it touches no user row, no balance, no warning
counter and no blacklist flag, and invokes no external penalty. -/
def create_anomaly_signal (signals : List AnomalySignal) (user_address : String)
    (signal_type details : String) (confidence : Rat) (detected_by : String) :
    List AnomalySignal :=
  signals ++ [{ wallet_address := user_address, signal_type := signal_type,
                details := details, confidence := confidence,
                status := "pending_review", detected_by := detected_by }]

/-! ### routes/water_validation.py, fraud_evaluate -/

/-- Response of the `POST /api/water/fraud-evaluate` route, together with
the bookkeeping field `penalty_call_invoked` recording whether the route
reached the `blockchain_service.submit_fraud_evidence` call. -/
structure FraudEvalResult where
  fraud_score : Int
  risk_level : String
  requires_action : Bool
  action : String
  tx_hash : Option String
  penalty_call_invoked : Bool
deriving DecidableEq

/-- Embeds the decision logic of `fraud_evaluate` for a request carrying a
pre-computed `aiScore` (lines 71-133 of routes/water_validation.py).  The
on-chain call is injected as `penaltyOutcome`.  The route takes no staff or
admin identity and no decision record: the action is a function of the
score alone. -/
def fraud_evaluate (fraud_score : Int) (penaltyOutcome : Except String String) :
    FraudEvalResult :=
  let risk_level :=
    if fraud_score ≥ 70 then "critical"
    else if fraud_score ≥ 50 then "high"
    else if fraud_score ≥ 30 then "medium"
    else "low"
  let requires_action := fraud_score ≥ 50
  if fraud_score ≥ 70 then
    match penaltyOutcome with
    | .ok tx =>
        { fraud_score := fraud_score, risk_level := risk_level,
          requires_action := requires_action, action := "penalty_applied",
          tx_hash := some tx, penalty_call_invoked := true }
    | .error _ =>
        { fraud_score := fraud_score, risk_level := risk_level,
          requires_action := requires_action, action := "penalty_failed",
          tx_hash := none, penalty_call_invoked := true }
  else if fraud_score ≥ 50 then
    { fraud_score := fraud_score, risk_level := risk_level,
      requires_action := requires_action, action := "under_review",
      tx_hash := none, penalty_call_invoked := false }
  else if fraud_score ≥ 30 then
    { fraud_score := fraud_score, risk_level := risk_level,
      requires_action := requires_action, action := "confirmation_needed",
      tx_hash := none, penalty_call_invoked := false }
  else
    { fraud_score := fraud_score, risk_level := risk_level,
      requires_action := requires_action, action := "none",
      tx_hash := none, penalty_call_invoked := false }

/-! ### services/inspection_service.py and
inspections/periodic_physical_inspection.py -/

/-- An `InspectionSchedule` row (the columns `complete_inspection`
touches). -/
structure InspectionRow where
  id : Nat
  wallet_address : String
  status : String
  actual_reading : Int
  inspector_wallet : String
  notes : String
deriving DecidableEq

/-- A water reading row with its creation day, as used for the reported
index and the months-late computation. -/
structure MeterReadingRow where
  wallet_address : String
  reading_index : Int
  created_day : Nat
deriving DecidableEq

/-- A `FraudRecord` row created when an inspection confirms fraud. -/
structure FraudRecordRow where
  wallet_address : String
  fraud_type : String
  penalty_amount : Rat
  original_reading : Int
  actual_reading : Int
  underpayment_amount : Rat
  interest_charged : Rat
deriving DecidableEq

/-- The state `complete_inspection` reads and writes: inspection schedules,
meter readings (newest first per wallet), user deposits and fraud
records. -/
structure InspectionDb where
  inspections : List InspectionRow
  readings : List MeterReadingRow
  deposits : List (String × Rat)
  fraud_records : List FraudRecordRow
deriving DecidableEq

/-- Monthly interest rate `UNDERPAYMENT_INTEREST_RATE = 0.05`. -/
def UNDERPAYMENT_INTEREST_RATE : Rat := 5 / 100

/-- Embeds `InspectionService._calculate_interest`. -/
def calculate_interest (amount : Rat) (months_late : Int) : Rat :=
  if amount ≤ 0 ∨ months_late ≤ 0 then 0
  else amount * UNDERPAYMENT_INTEREST_RATE * (months_late : Rat)

/-- Result of `complete_inspection`. -/
structure CompleteInspectionResult where
  success : Bool
  fraud_found : Bool
  reported_reading : Int
  actual_reading : Int
  penalty_amount : Rat
  underpayment : Rat
  interest : Rat
  transaction_hash : Option String
  message : String
deriving DecidableEq

/-- Mutation of the first inspection row with id `i`. -/
def update_inspection (is_ : List InspectionRow) (i : Nat)
    (f : InspectionRow → InspectionRow) : List InspectionRow :=
  match is_ with
  | [] => []
  | r :: rest => if r.id == i then f r :: rest else r :: update_inspection rest i f

/-- Embeds `InspectionService.complete_inspection`.  The caller-supplied
`fraud_found` flag is taken at face value: the inspection status becomes
`fraud_found` or `completed` directly from it, with no tolerance band
applied anywhere.  Underpayment and interest are computed whenever the flag
is set and the actual reading exceeds the last reported one; the deposit
penalty call is injected as `penaltyOutcome` and its failure ignored. -/
def complete_inspection (idb : InspectionDb) (inspection_id : Nat)
    (inspector_wallet : String) (actual_reading : Int) (fraud_found : Bool)
    (notes : String) (today : Nat) (penaltyOutcome : Except String String) :
    CompleteInspectionResult × InspectionDb :=
  match idb.inspections.find? (fun r => r.id == inspection_id) with
  | none =>
      ({ success := false, fraud_found := false, reported_reading := 0,
         actual_reading := 0, penalty_amount := 0, underpayment := 0,
         interest := 0, transaction_hash := none,
         message := "Kontrol bulunamadi" }, idb)
  | some insp =>
      if insp.status == "completed" then
        ({ success := false, fraud_found := false, reported_reading := 0,
           actual_reading := 0, penalty_amount := 0, underpayment := 0,
           interest := 0, transaction_hash := none,
           message := "Kontrol zaten tamamlanmis" }, idb)
      else
        let user_address := insp.wallet_address
        let lastOpt := idb.readings.find? fun r => r.wallet_address == user_address
        let reported_reading :=
          match lastOpt with
          | some r => r.reading_index
          | none => 0
        let inspections1 := update_inspection idb.inspections inspection_id fun r =>
          { r with inspector_wallet := inspector_wallet,
                   actual_reading := actual_reading,
                   status := if fraud_found then "fraud_found" else "completed",
                   notes := notes }
        if fraud_found then
          let underpayment : Rat :=
            if actual_reading > reported_reading then
              ((actual_reading - reported_reading : Int) : Rat) * 10
            else 0
          let months_late : Int :=
            if actual_reading > reported_reading then
              match lastOpt with
              | some r => max 1 (((today - r.created_day : Nat) / 30 : Nat) : Int)
              | none => 1
            else 0
          let interest :=
            if actual_reading > reported_reading then
              calculate_interest underpayment months_late
            else 0
          let depositOpt := idb.deposits.find? fun p => p.1 == user_address
          let penalty_amount : Rat :=
            match depositOpt with
            | some p => if p.2 > 0 then p.2 else 0
            | none => 0
          let tx :=
            match depositOpt with
            | some p =>
                if p.2 > 0 then
                  match penaltyOutcome with
                  | .ok h => some h
                  | .error _ => none
                else none
            | none => none
          let record : FraudRecordRow :=
            { wallet_address := user_address, fraud_type := "inspection_detected",
              penalty_amount := penalty_amount, original_reading := reported_reading,
              actual_reading := actual_reading, underpayment_amount := underpayment,
              interest_charged := interest }
          ({ success := true, fraud_found := true,
             reported_reading := reported_reading, actual_reading := actual_reading,
             penalty_amount := penalty_amount, underpayment := underpayment,
             interest := interest, transaction_hash := tx,
             message := "Fraud tespit edildi" },
           { idb with inspections := inspections1,
                      fraud_records := idb.fraud_records ++ [record] })
        else
          ({ success := true, fraud_found := false,
             reported_reading := reported_reading, actual_reading := actual_reading,
             penalty_amount := 0, underpayment := 0, interest := 0,
             transaction_hash := none, message := "Kontrol tamamlandi" },
           { idb with inspections := inspections1 })

/-- Result of `validate_inspection_result`. -/
structure ValidateResult where
  fraud_detected : Bool
  difference : Int
  difference_percent : Rat
  severity : String
deriving DecidableEq

/-- Embeds `PeriodicInspectionManager.validate_inspection_result`, the
tolerance-band evaluation (default tolerance 5 percent).  Nothing in the
repository calls it: `complete_inspection` does not consult it. -/
def validate_inspection_result (reported_reading actual_reading : Int)
    (tolerance_percent : Rat) : ValidateResult :=
  let difference := actual_reading - reported_reading
  let diff_percent : Rat :=
    if reported_reading > 0 then
      ((difference : Rat) / (reported_reading : Rat)) * 100
    else if difference > 0 then 100 else 0
  if |diff_percent| ≤ tolerance_percent then
    { fraud_detected := false, difference := difference,
      difference_percent := diff_percent, severity := "none" }
  else
    let severity :=
      if diff_percent > 50 then "critical"
      else if diff_percent > 20 then "major"
      else if diff_percent > tolerance_percent then "minor"
      else "none"
    { fraud_detected := diff_percent > tolerance_percent, difference := difference,
      difference_percent := diff_percent, severity := severity }

/-! ### Helper lemmas about the row stores -/

lemma find_user_update (users : List UserRow) (w : String) (f : UserRow → UserRow)
    (hf : ∀ u, (f u).wallet_address = u.wallet_address) :
    find_user (update_user users w f) w = (find_user users w).map f := by
  induction users with
  | nil => simp [find_user, update_user]
  | cons u rest ih =>
      by_cases h : u.wallet_address == w
      · have h2 : (f u).wallet_address == w := by
          rw [hf u]; exact h
        simp [find_user, update_user, List.find?, h, h2]
      · have h2 : ¬ ((u).wallet_address == w) := h
        simp only [update_user, if_neg h]
        simp only [find_user, List.find?, h2] at ih ⊢
        simpa using ih

lemma find_user_eq_wallet {users : List UserRow} {w : String} {u : UserRow}
    (h : find_user users w = some u) : u.wallet_address = w := by
  have := List.find?_some h
  simpa [beq_iff_eq] using this

lemma find_decl_update (ds : List Declaration) (i : Nat) (f : Declaration → Declaration)
    (hf : ∀ d, (f d).id = d.id) :
    find_decl (update_decl ds i f) i = (find_decl ds i).map f := by
  induction ds with
  | nil => simp [find_decl, update_decl]
  | cons d rest ih =>
      by_cases h : d.id == i
      · have h2 : (f d).id == i := by
          rw [hf d]; exact h
        simp [find_decl, update_decl, List.find?, h, h2]
      · simp only [update_decl, if_neg h]
        simp only [find_decl, List.find?, h] at ih ⊢
        simpa using ih

lemma find_decl_eq_id {ds : List Declaration} {i : Nat} {d : Declaration}
    (h : find_decl ds i = some d) : d.id = i := by
  have := List.find?_some h
  simpa [beq_iff_eq] using this

/-! ### Claim theorems -/

/-- C1: contrary to the claim that no anomaly score by itself triggers a
penalty, the fraud-evaluate route at score 82 (with no staff or admin
decision anywhere in its inputs) invokes the on-chain
`submit_fraud_evidence` penalty call and reports the action
`penalty_applied`. -/
theorem C1_score_alone_triggers_penalty :
    (fraud_evaluate 82 (.ok "0xfeedbeef")).penalty_call_invoked = true ∧
    (fraud_evaluate 82 (.ok "0xfeedbeef")).action = "penalty_applied" ∧
    (fraud_evaluate 82 (.ok "0xfeedbeef")).risk_level = "critical" ∧
    (fraud_evaluate 82 (.ok "0xfeedbeef")).tx_hash = some "0xfeedbeef" := by
  decide

/-- C4 counterexample: at a drop of exactly 50 percent (history average 2,
current delta 1) the check returns no warning, although the claim requires a
warning whenever the drop percentage is at least 50. -/
theorem C4_counterexample_drop_exactly_50 :
    (check_consumption_drop [⟨100, 5⟩, ⟨90, 2⟩] 101).warning = false ∧
    (check_consumption_drop [⟨100, 5⟩, ⟨90, 2⟩] 101).current_consumption = 1 ∧
    (check_consumption_drop [⟨100, 5⟩, ⟨90, 2⟩] 101).average_consumption = 2 ∧
    ((2 : Rat) - 1) / 2 * 100 = 50 := by
  with_unfolding_all decide

lemma drop_condition_iff (avg cur : Rat) (havg : 0 < avg) :
    (cur < avg * (1 - CONSUMPTION_DROP_THRESHOLD)) ↔
      50 < (avg - cur) / avg * 100 := by
  unfold CONSUMPTION_DROP_THRESHOLD
  rw [div_mul_eq_mul_div, lt_div_iff₀ havg]
  constructor <;> intro h <;> nlinarith

lemma guard_avg_pos (readings : List Reading)
    (hcons : guard_consumptions readings ≠ []) : 0 < guard_avg readings := by
  have hpos : ∀ x ∈ guard_consumptions readings, 0 < x := by
    intro x hx
    simp only [guard_consumptions, List.mem_filterMap] at hx
    obtain ⟨r, _, hr⟩ := hx
    by_cases hc : r.consumption_m3 > 0
    · rw [if_pos hc] at hr
      cases hr
      exact hc
    · rw [if_neg hc] at hr
      cases hr
  have hsum : 0 < (guard_consumptions readings).sum :=
    List.sum_pos _ hpos hcons
  have hlen : 0 < ((guard_consumptions readings).length : Rat) := by
    have := List.length_pos.mpr hcons
    exact_mod_cast this
  exact div_pos hsum hlen

/-- C4 amended: with fewer than two historical readings the check allows
unconditionally; otherwise, writing `avg` for the mean of the positive prior
deltas and `cur` for the current delta, the check warns exactly when the
drop percentage is strictly greater than 50 (not at least 50), and a
warning carries the current delta, the average and the drop percentage. -/
theorem C4_amended_strict_threshold :
    (∀ readings current, readings.length < 2 →
        (check_consumption_drop readings current).warning = false) ∧
    (∀ readings current,
        2 ≤ readings.length →
        guard_consumptions readings ≠ [] →
        (((check_consumption_drop readings current).warning = true ↔
            50 < (guard_avg readings -
              (guard_current readings current : Rat)) / guard_avg readings * 100) ∧
        ((check_consumption_drop readings current).warning = true →
            (check_consumption_drop readings current).current_consumption =
              guard_current readings current ∧
            (check_consumption_drop readings current).average_consumption =
              guard_avg readings ∧
            (check_consumption_drop readings current).drop_percent =
              (guard_avg readings -
                (guard_current readings current : Rat)) / guard_avg readings * 100))) := by
  constructor
  · intro readings current h
    simp [check_consumption_drop, h]
  · intro readings current hlen hcons
    have hlen2 : ¬ readings.length < 2 := by omega
    have havg : 0 < guard_avg readings := guard_avg_pos readings hcons
    have hkey := drop_condition_iff (guard_avg readings)
      ((guard_current readings current : Int) : Rat) havg
    by_cases hP : guard_avg readings > 0 ∧
        ((guard_current readings current : Int) : Rat) <
          guard_avg readings * (1 - CONSUMPTION_DROP_THRESHOLD)
    · have hw : check_consumption_drop readings current =
          { warning := true,
            current_consumption := guard_current readings current,
            average_consumption := guard_avg readings,
            drop_percent :=
              (guard_avg readings - (guard_current readings current : Rat)) /
                guard_avg readings * 100,
            message := "Tuketiminiz gecmis aylara gore dustu" } := by
        simp only [check_consumption_drop, if_neg hlen2, if_neg hcons, if_pos hP]
      rw [hw]
      refine ⟨⟨fun _ => hkey.mp hP.2, fun _ => rfl⟩, fun _ => ⟨rfl, rfl, rfl⟩⟩
    · have hw : check_consumption_drop readings current =
          { warning := false,
            current_consumption := guard_current readings current,
            average_consumption := guard_avg readings,
            drop_percent := 0,
            message := "Normal tuketim araliginda" } := by
        simp only [check_consumption_drop, if_neg hlen2, if_neg hcons, if_neg hP]
      rw [hw]
      exact ⟨⟨fun h => Bool.noConfusion h,
              fun hgt => absurd ⟨havg, hkey.mpr hgt⟩ hP⟩,
             fun h => Bool.noConfusion h⟩

/-- C4 witness: the amended theorem applied to an empty history (allowed
unconditionally) and to a history with average 8 against a current delta of
1 (87.5 percent drop, warning raised). -/
theorem C4_amended_strict_threshold_witness :
    (check_consumption_drop [] 0).warning = false ∧
    ((check_consumption_drop [⟨100, 5⟩, ⟨90, 8⟩] 101).warning = true ↔
      50 < (guard_avg [⟨100, 5⟩, ⟨90, 8⟩] -
        (guard_current [⟨100, 5⟩, ⟨90, 8⟩] 101 : Rat)) /
          guard_avg [⟨100, 5⟩, ⟨90, 8⟩] * 100) :=
  ⟨C4_amended_strict_threshold.1 [] 0 (by decide),
   (C4_amended_strict_threshold.2 [⟨100, 5⟩, ⟨90, 8⟩] 101 (by decide)
      (by with_unfolding_all decide)).1⟩

/-- A valid all-digit wallet address: its lowercase and checksummed
renderings coincide, so it is stored and found consistently across the
backend's two normalizations. -/
def W1 : String := "0x1111111111111111111111111111111111111111"

/-- C5: the reward-claim endpoint zeroes the pending balance only after a
successful mint response; a failed settlement call leaves the balance (and
the whole store) untouched and surfaces an error. -/
theorem C5_balance_zeroed_only_after_settlement :
    (∀ db w e,
        (claim_rewards db w (.error e)).1.success = false ∧
        (claim_rewards db w (.error e)).2 = db) ∧
    (∀ db w nw u tx, normalize_wallet_address w = some nw →
        find_user db.users nw = some u →
        0 < u.pending_reward_balance →
        (claim_rewards db w (.ok tx)).1.success = true ∧
        (claim_rewards db w (.ok tx)).1.claimed_amount = u.pending_reward_balance ∧
        find_user (claim_rewards db w (.ok tx)).2.users nw =
          some { u with pending_reward_balance := 0 }) := by
  constructor
  · intro db w e
    simp only [claim_rewards]
    rcases hn : normalize_wallet_address w with _ | nw
    · simp
    · rcases hf : find_user db.users nw with _ | u
      · simp [hf]
      · by_cases hb : u.pending_reward_balance ≤ 0
        · simp [hf, hb]
        · simp [hf, hb]
  · intro db w nw u tx hn hf hb
    have hwa : u.wallet_address = nw := find_user_eq_wallet hf
    have hb2 : ¬ u.pending_reward_balance ≤ 0 := by omega
    simp only [claim_rewards, hn, hf, if_neg hb2]
    refine ⟨trivial, trivial, ?_⟩
    rw [hwa, find_user_update db.users nw
      (fun x => { x with pending_reward_balance := 0 }) (fun _ => rfl), hf]
    simp [hwa]

/-- C5 witness: a stored user with balance 5 and a successful mint: the
claim succeeds for 5 and the stored balance becomes 0. -/
theorem C5_balance_zeroed_only_after_settlement_witness :
    (claim_rewards ⟨[⟨W1, 2, false, 5⟩], [], []⟩ W1 (.ok "0xabc")).1.success = true ∧
    (claim_rewards ⟨[⟨W1, 2, false, 5⟩], [], []⟩ W1 (.ok "0xabc")).1.claimed_amount = 5 ∧
    find_user (claim_rewards ⟨[⟨W1, 2, false, 5⟩], [], []⟩ W1 (.ok "0xabc")).2.users W1 =
      some ⟨W1, 2, false, 0⟩ :=
  C5_balance_zeroed_only_after_settlement.2 ⟨[⟨W1, 2, false, 5⟩], [], []⟩ W1 W1
    ⟨W1, 2, false, 5⟩ "0xabc" (by decide) (by decide) (by decide)

lemma find_decl_by_token_update (ds : List Declaration) (t : String)
    (f : Declaration → Declaration) (hf : ∀ d, (f d).qr_token_id = d.qr_token_id) :
    find_decl_by_token (update_decl_by_token ds t f) t =
      (find_decl_by_token ds t).map f := by
  induction ds with
  | nil => simp [find_decl_by_token, update_decl_by_token]
  | cons d rest ih =>
      by_cases h : d.qr_token_id == t
      · have h2 : (f d).qr_token_id == t := by
          rw [hf d]; exact h
        simp [find_decl_by_token, update_decl_by_token, List.find?, h, h2]
      · simp only [update_decl_by_token, if_neg h]
        simp only [find_decl_by_token, List.find?, h] at ih ⊢
        simpa using ih

/-- Helper shared by several claims: approving a declaration that is not in
the pending state is rejected with no mutation at all. -/
lemma approve_declaration_nonpending (db : Db) (i : Nat) (a : String)
    (d : Declaration) (hd : find_decl db.declarations i = some d)
    (hs : d.admin_approval_status ≠ "pending") :
    (approve_declaration db i a).1.success = false ∧
    (approve_declaration db i a).2 = db := by
  simp only [approve_declaration, hd]
  rw [if_pos hs]
  exact ⟨rfl, rfl⟩

/-- C10: approving a pending declaration whose wallet has no user row still
succeeds, marks the declaration approved with the QR consumed, reports a
zero balance, and changes no user row at all: the reward is silently never
credited. -/
theorem C10_approve_without_user_row_credits_nothing :
    ∀ db i a d,
      find_decl db.declarations i = some d →
      d.admin_approval_status = "pending" →
      find_user db.users d.wallet_address = none →
      ((approve_declaration db i a).1.success = true ∧
       (approve_declaration db i a).1.reward_amount = d.total_reward_amount ∧
       (approve_declaration db i a).1.new_pending_balance = 0 ∧
       (approve_declaration db i a).2.users = db.users ∧
       (find_decl (approve_declaration db i a).2.declarations i).map
          (fun x => x.admin_approval_status) = some "approved" ∧
       (find_decl (approve_declaration db i a).2.declarations i).map
          (fun x => x.is_qr_used) = some true) := by
  intro db i a d hd hs hu
  have hs2 : ¬ d.admin_approval_status ≠ "pending" := by simp [hs]
  simp only [approve_declaration, hd, if_neg hs2, hu]
  refine ⟨trivial, trivial, trivial, trivial, ?_, ?_⟩ <;>
    simp [find_decl_update, hd]

/-- C10 witness: a concrete pending declaration for a wallet with no user
row. -/
theorem C10_approve_without_user_row_credits_nothing_witness :
    (approve_declaration
        ⟨[], [⟨1, W1, 1, 0, 0, 0, 0, "tok", false, false, 10, "pending", "", false, ""⟩], []⟩
        1 "0xadmin").1.success = true ∧
    (approve_declaration
        ⟨[], [⟨1, W1, 1, 0, 0, 0, 0, "tok", false, false, 10, "pending", "", false, ""⟩], []⟩
        1 "0xadmin").1.reward_amount = 10 ∧
    (approve_declaration
        ⟨[], [⟨1, W1, 1, 0, 0, 0, 0, "tok", false, false, 10, "pending", "", false, ""⟩], []⟩
        1 "0xadmin").1.new_pending_balance = 0 ∧
    (approve_declaration
        ⟨[], [⟨1, W1, 1, 0, 0, 0, 0, "tok", false, false, 10, "pending", "", false, ""⟩], []⟩
        1 "0xadmin").2.users = [] ∧
    (find_decl (approve_declaration
        ⟨[], [⟨1, W1, 1, 0, 0, 0, 0, "tok", false, false, 10, "pending", "", false, ""⟩], []⟩
        1 "0xadmin").2.declarations 1).map
      (fun x => x.admin_approval_status) = some "approved" ∧
    (find_decl (approve_declaration
        ⟨[], [⟨1, W1, 1, 0, 0, 0, 0, "tok", false, false, 10, "pending", "", false, ""⟩], []⟩
        1 "0xadmin").2.declarations 1).map
      (fun x => x.is_qr_used) = some true := by
  have h := C10_approve_without_user_row_credits_nothing
    ⟨[], [⟨1, W1, 1, 0, 0, 0, 0, "tok", false, false, 10, "pending", "", false, ""⟩], []⟩
    1 "0xadmin" ⟨1, W1, 1, 0, 0, 0, 0, "tok", false, false, 10, "pending", "", false, ""⟩
    (by with_unfolding_all decide) (by decide) (by decide)
  exact ⟨h.1, h.2.1, h.2.2.1, h.2.2.2.1, h.2.2.2.2.1, h.2.2.2.2.2⟩

/-- C3 counterexample: `mark_fraud` on an already-approved declaration
succeeds and moves it to `fraud`, although the claim says `mark_fraud`
succeeds only on a pending claim and no operation moves an approved claim
to fraud. -/
theorem C3_counterexample_mark_fraud_on_approved :
    (mark_fraud
        ⟨[], [⟨1, W1, 1, 0, 0, 0, 0, "tok", false, true, 10, "approved", "0xa", false, ""⟩], []⟩
        1 "0xstaff" "gerekce").1.success = true ∧
    (find_decl (mark_fraud
        ⟨[], [⟨1, W1, 1, 0, 0, 0, 0, "tok", false, true, 10, "approved", "0xa", false, ""⟩], []⟩
        1 "0xstaff" "gerekce").2.declarations 1).map
      (fun d => d.admin_approval_status) = some "fraud" := by
  with_unfolding_all decide

/-- C3 amended: approve and reject are guarded (they fail without mutation
unless the declaration is pending), but `mark_fraud` and `expire_qr` apply
no state guard at all: `mark_fraud` moves any found declaration (whatever
its state, including approved) to fraud, and `expire_qr` moves any found
declaration to expired. -/
theorem C3_amended_mark_fraud_and_expire_unguarded :
    (∀ db i a d, find_decl db.declarations i = some d →
        d.admin_approval_status ≠ "pending" →
        (approve_declaration db i a).1.success = false ∧
        (approve_declaration db i a).2 = db) ∧
    (∀ db i s r d, find_decl db.declarations i = some d →
        d.admin_approval_status ≠ "pending" →
        (reject_declaration db i s r).1.success = false ∧
        (reject_declaration db i s r).2 = db) ∧
    (∀ db i a r d, find_decl db.declarations i = some d →
        (mark_fraud db i a r).1.success = true ∧
        (find_decl (mark_fraud db i a r).2.declarations i).map
          (fun x => x.admin_approval_status) = some "fraud" ∧
        (find_decl (mark_fraud db i a r).2.declarations i).map
          (fun x => x.is_fraud) = some true) ∧
    (∀ db t d, find_decl_by_token db.declarations t = some d →
        (expire_qr db t).1.success = true ∧
        (find_decl_by_token (expire_qr db t).2.declarations t).map
          (fun x => x.admin_approval_status) = some "expired") := by
  refine ⟨approve_declaration_nonpending, ?_, ?_, ?_⟩
  · intro db i s r d hd hs
    simp only [reject_declaration, hd]
    rw [if_pos hs]
    exact ⟨rfl, rfl⟩
  · intro db i a r d hd
    simp only [mark_fraud, hd]
    refine ⟨trivial, ?_, ?_⟩ <;>
      simp [find_decl_update, hd]
  · intro db t d hd
    simp only [expire_qr, hd]
    refine ⟨trivial, ?_⟩
    simp [find_decl_by_token_update, hd]

/-- C3 witness: the amended theorem applied to one concrete declaration per
clause (approved for the guards, pending for the unguarded transitions). -/
theorem C3_amended_mark_fraud_and_expire_unguarded_witness :
    ((approve_declaration
        ⟨[], [⟨1, W1, 1, 0, 0, 0, 0, "tok", false, true, 10, "approved", "0xa", false, ""⟩], []⟩
        1 "0xb").1.success = false ∧
     (approve_declaration
        ⟨[], [⟨1, W1, 1, 0, 0, 0, 0, "tok", false, true, 10, "approved", "0xa", false, ""⟩], []⟩
        1 "0xb").2 =
       ⟨[], [⟨1, W1, 1, 0, 0, 0, 0, "tok", false, true, 10, "approved", "0xa", false, ""⟩], []⟩) ∧
    ((mark_fraud
        ⟨[], [⟨1, W1, 1, 0, 0, 0, 0, "tok", false, false, 10, "pending", "", false, ""⟩], []⟩
        1 "0xs" "r").1.success = true) ∧
    ((expire_qr
        ⟨[], [⟨1, W1, 1, 0, 0, 0, 0, "tok", false, false, 10, "pending", "", false, ""⟩], []⟩
        "tok").1.success = true) :=
  ⟨C3_amended_mark_fraud_and_expire_unguarded.1
      ⟨[], [⟨1, W1, 1, 0, 0, 0, 0, "tok", false, true, 10, "approved", "0xa", false, ""⟩], []⟩
      1 "0xb" ⟨1, W1, 1, 0, 0, 0, 0, "tok", false, true, 10, "approved", "0xa", false, ""⟩
      (by with_unfolding_all decide) (by decide),
   (C3_amended_mark_fraud_and_expire_unguarded.2.2.1
      ⟨[], [⟨1, W1, 1, 0, 0, 0, 0, "tok", false, false, 10, "pending", "", false, ""⟩], []⟩
      1 "0xs" "r" ⟨1, W1, 1, 0, 0, 0, 0, "tok", false, false, 10, "pending", "", false, ""⟩
      (by with_unfolding_all decide)).1,
   (C3_amended_mark_fraud_and_expire_unguarded.2.2.2
      ⟨[], [⟨1, W1, 1, 0, 0, 0, 0, "tok", false, false, 10, "pending", "", false, ""⟩], []⟩
      "tok" ⟨1, W1, 1, 0, 0, 0, 0, "tok", false, false, 10, "pending", "", false, ""⟩
      (by with_unfolding_all decide)).1⟩

/-! ### C2 trace: approve, then mark_fraud, then appeal approval -/

/-- Initial store for the C2 trace: one registered user, no declarations. -/
def c2_db0 : Db := ⟨[⟨W1, 2, false, 0⟩], [], []⟩

/-- After creating a declaration of 1 kg plastic (reward 10). -/
def c2_db1 : Db :=
  match create_declaration c2_db0 W1 1 0 0 0 0 "tok1" 1 with
  | .ok (db, _) => db
  | .error _ => c2_db0

/-- After the staff approval: the reward is credited once. -/
def c2_db2 : Db := (approve_declaration c2_db1 1 "0xadmin").2

/-- After `mark_fraud` on the (already approved) declaration via the route,
which also opens the pending appeal. -/
def c2_db3 : Db := (mark_declaration_fraud_route c2_db2 1 "0xstaff" "supheli" 1).2

/-- After the admin approves the appeal: the reward is credited again. -/
def c2_db4 : Db := (decide_fraud_appeal c2_db3 1 "approve" "0xboss" (.ok "0xtx")).2

/-- C2 counterexample: the single declaration (reward 10) contributes to the
pending balance twice: the balance is 10 after approval and 20 after the
sequence approve, mark_fraud, appeal-approve, because the appeal-approval
path credits unconditionally without checking that the reward was already
credited. -/
theorem C2_counterexample_double_credit :
    (find_decl c2_db1.declarations 1).map (fun d => d.total_reward_amount) = some 10 ∧
    (find_user c2_db2.users W1).map (fun u => u.pending_reward_balance) = some 10 ∧
    (find_user c2_db4.users W1).map (fun u => u.pending_reward_balance) = some 20 := by
  with_unfolding_all decide

/-- C2 amended: re-invoking approve on an already-approved claim is indeed
rejected without re-crediting, but appeal approval performs no
already-credited check: it credits unconditionally, so the sequence approve,
mark_fraud, appeal-approve adds the same claim's reward to the pending
balance twice. -/
theorem C2_amended_credit_once_per_approve_only :
    (∀ db i a d, find_decl db.declarations i = some d →
        d.admin_approval_status ≠ "pending" →
        (approve_declaration db i a).1.success = false ∧
        (approve_declaration db i a).2 = db) ∧
    ((find_decl c2_db1.declarations 1).map (fun d => d.total_reward_amount) = some 10 ∧
     (find_user c2_db4.users W1).map (fun u => u.pending_reward_balance) = some 20) := by
  refine ⟨approve_declaration_nonpending, ?_, ?_⟩ <;> with_unfolding_all decide

/-- C2 witness: the guarded part of the amended theorem applied to the
approved declaration of the trace itself: the second approve is rejected
and mutates nothing. -/
theorem C2_amended_credit_once_per_approve_only_witness :
    (approve_declaration c2_db2 1 "0xadmin2").1.success = false ∧
    (approve_declaration c2_db2 1 "0xadmin2").2 = c2_db2 :=
  C2_amended_credit_once_per_approve_only.1 c2_db2 1 "0xadmin2"
    ⟨1, W1, 1, 0, 0, 0, 0, "tok1", false, true, 10, "approved", "0xadmin", false, ""⟩
    (by with_unfolding_all decide) (by decide)

/-! ### C6: warning counter and blacklist flag -/

/-- The reward the appeal-approval branch credits: the linked declaration's
stored reward, or 0 when the declaration row is missing. -/
def appeal_reward (db : Db) (ap : AppealRow) : Int :=
  match find_decl db.declarations ap.declaration_id with
  | some d => d.total_reward_amount
  | none => 0

lemma decrement_wallet (u : UserRow) :
    (decrement_warning_and_flag u).wallet_address = u.wallet_address := by
  unfold decrement_warning_and_flag
  dsimp only
  split_ifs <;> rfl

lemma restore_credit_wallet (r : Int) (u : UserRow) :
    (credit_reward r (restore_warning u)).wallet_address = u.wallet_address := by
  unfold credit_reward restore_warning
  split_ifs <;> rfl

/-- Initial store for the C6 trace: one user with a single warning left and
two pending appeals naming declarations that carry no reward row. -/
def c6_db0 : Db :=
  ⟨[⟨W1, 1, false, 0⟩], [],
   [⟨1, 5, W1, "0xs", "sebep", "pending", ""⟩,
    ⟨2, 6, W1, "0xs", "sebep", "pending", ""⟩]⟩

/-- After the first appeal is rejected: the counter reaches 0 and the user
is blacklisted. -/
def c6_db1 : Db := (decide_fraud_appeal c6_db0 1 "reject" "0xboss" (.error "down")).2

/-- After the second appeal is approved: the counter is restored to 1, but
the blacklist flag is never cleared. -/
def c6_db2 : Db := (decide_fraud_appeal c6_db1 2 "approve" "0xboss" (.ok "0xtx")).2

/-- C6 counterexample: after a rejection (counter 0, blacklisted) followed
by an appeal approval, the counter is back to 1 while `blacklisted` is still
true.  The claim's biconditional (blacklisted exactly when the counter is 0)
is false in this reachable state. -/
theorem C6_counterexample_blacklist_not_cleared :
    (find_user c6_db1.users W1).map
      (fun u => (u.recycling_fraud_warnings_remaining, u.is_recycling_blacklisted)) =
      some (0, true) ∧
    (find_user c6_db2.users W1).map
      (fun u => (u.recycling_fraud_warnings_remaining, u.is_recycling_blacklisted)) =
      some (1, true) := by
  with_unfolding_all decide

/-- C6 amended: appeal rejection decrements the counter with floor 0 and
sets the blacklist flag whenever the resulting counter is 0 (idempotently),
appeal approval increments with ceiling 2, and the counter stays within
[0, 2]; but approval never clears the blacklist flag, so `blacklisted` is
not equivalent to counter 0: once set it persists even after the counter
rises above 0, as in the concrete trace where the counter is 1 and the flag
still true. -/
theorem C6_amended_flag_set_but_never_cleared :
    (∀ db i a po ap nw u,
        find_appeal db.appeals i = some ap → ap.status = "pending" →
        normalize_wallet_address ap.citizen_wallet = some nw →
        find_user db.users nw = some u →
        find_user (decide_fraud_appeal db i "reject" a po).2.users nw =
          some (decrement_warning_and_flag u)) ∧
    (∀ db i a po ap nw u,
        find_appeal db.appeals i = some ap → ap.status = "pending" →
        normalize_wallet_address ap.citizen_wallet = some nw →
        find_user db.users nw = some u →
        find_user (decide_fraud_appeal db i "approve" a po).2.users nw =
          some (credit_reward (appeal_reward db ap) (restore_warning u))) ∧
    (∀ u, 0 ≤ u.recycling_fraud_warnings_remaining →
        u.recycling_fraud_warnings_remaining ≤ 2 →
        (0 ≤ (decrement_warning_and_flag u).recycling_fraud_warnings_remaining ∧
         (decrement_warning_and_flag u).recycling_fraud_warnings_remaining ≤ 2 ∧
         (decrement_warning_and_flag u).recycling_fraud_warnings_remaining =
           (if 0 < u.recycling_fraud_warnings_remaining then
              u.recycling_fraud_warnings_remaining - 1
            else u.recycling_fraud_warnings_remaining) ∧
         (decrement_warning_and_flag u).is_recycling_blacklisted =
           (u.is_recycling_blacklisted ||
             decide ((decrement_warning_and_flag u).recycling_fraud_warnings_remaining = 0)))) ∧
    (∀ r u, 0 ≤ u.recycling_fraud_warnings_remaining →
        u.recycling_fraud_warnings_remaining ≤ 2 →
        (0 ≤ (credit_reward r (restore_warning u)).recycling_fraud_warnings_remaining ∧
         (credit_reward r (restore_warning u)).recycling_fraud_warnings_remaining ≤ 2 ∧
         (credit_reward r (restore_warning u)).recycling_fraud_warnings_remaining =
           (if u.recycling_fraud_warnings_remaining < 2 then
              u.recycling_fraud_warnings_remaining + 1
            else u.recycling_fraud_warnings_remaining) ∧
         (credit_reward r (restore_warning u)).is_recycling_blacklisted =
           u.is_recycling_blacklisted)) ∧
    ((find_user c6_db2.users W1).map
       (fun u => (u.recycling_fraud_warnings_remaining, u.is_recycling_blacklisted)) =
       some (1, true)) := by
  refine ⟨?_, ?_, ?_, ?_, ?_⟩
  · intro db i a po ap nw u hap hst hnw hu
    have hd1 : ¬(("reject" : String) ≠ "approve" ∧ ("reject" : String) ≠ "reject") := by
      decide
    have hst2 : ¬ ap.status ≠ "pending" := by simp [hst]
    simp only [decide_fraud_appeal, if_neg hd1, hap, if_neg hst2, hnw, hu]
    rw [if_neg (show ¬ ((("reject" : String) == "approve") = true) by decide)]
    show find_user (update_user db.users nw decrement_warning_and_flag) nw = _
    rw [find_user_update db.users nw decrement_warning_and_flag decrement_wallet, hu]
    rfl
  · intro db i a po ap nw u hap hst hnw hu
    have hd1 : ¬(("approve" : String) ≠ "approve" ∧ ("approve" : String) ≠ "reject") := by
      decide
    have hst2 : ¬ ap.status ≠ "pending" := by simp [hst]
    simp only [decide_fraud_appeal, if_neg hd1, hap, if_neg hst2, hnw, hu]
    rw [if_pos (show ((("approve" : String) == "approve") = true) by decide)]
    rw [find_user_update db.users nw _ (fun uu => restore_credit_wallet _ uu), hu]
    rfl
  · intro u h0 h2
    unfold decrement_warning_and_flag
    dsimp only
    split_ifs <;> simp_all <;> omega
  · intro r u h0 h2
    unfold credit_reward restore_warning
    split_ifs <;> simp_all <;> omega
  · with_unfolding_all decide

/-- C6 witness: the reject and approve clauses of the amended theorem
applied to the concrete trace store, together with the bounds clause at a
concrete user row. -/
theorem C6_amended_flag_set_but_never_cleared_witness :
    (find_user (decide_fraud_appeal c6_db0 1 "reject" "0xboss" (.error "down")).2.users W1 =
      some (decrement_warning_and_flag ⟨W1, 1, false, 0⟩)) ∧
    (0 ≤ (decrement_warning_and_flag ⟨W1, 1, false, 0⟩).recycling_fraud_warnings_remaining ∧
     (decrement_warning_and_flag ⟨W1, 1, false, 0⟩).recycling_fraud_warnings_remaining ≤ 2 ∧
     (decrement_warning_and_flag ⟨W1, 1, false, 0⟩).recycling_fraud_warnings_remaining =
       (if (0 : Int) < 1 then (1 : Int) - 1 else 1) ∧
     (decrement_warning_and_flag ⟨W1, 1, false, 0⟩).is_recycling_blacklisted =
       (false ||
         decide ((decrement_warning_and_flag ⟨W1, 1, false, 0⟩).recycling_fraud_warnings_remaining = 0))) :=
  ⟨C6_amended_flag_set_but_never_cleared.1 c6_db0 1 "0xboss" (.error "down")
      ⟨1, 5, W1, "0xs", "sebep", "pending", ""⟩ W1 ⟨W1, 1, false, 0⟩
      (by decide) (by decide) (by decide) (by decide),
   C6_amended_flag_set_but_never_cleared.2.2.1 ⟨W1, 1, false, 0⟩ (by decide) (by decide)⟩

/-! ### C7: tolerance band on physical inspections -/

/-- Store for the C7 evaluation: one pending inspection, a last reported
reading of 100 taken on day 0, and a 2000 deposit. -/
def c7_idb : InspectionDb :=
  ⟨[⟨7, W1, "pending", 0, "", ""⟩], [⟨W1, 100, 0⟩], [(W1, 2000)], []⟩

/-- C7: completing the inspection with actual 103 against reported 100 (a 3
percent difference, inside the default 5 percent tolerance band) and the
inspector flag set still ends in status `fraud_found` with underpayment 30,
interest 4.5 and a fraud record, because `complete_inspection` never
consults the tolerance band; the repository's own (never called)
`validate_inspection_result` reports no fraud for the same readings. -/
theorem C7_within_tolerance_still_fraud :
    (complete_inspection c7_idb 7 "0xinsp" 103 true "kayit" 90 (.ok "0xp")).1.success = true ∧
    ((complete_inspection c7_idb 7 "0xinsp" 103 true "kayit" 90 (.ok "0xp")).2.inspections.find?
        (fun r => r.id == 7)).map (fun r => r.status) = some "fraud_found" ∧
    (complete_inspection c7_idb 7 "0xinsp" 103 true "kayit" 90 (.ok "0xp")).1.underpayment = 30 ∧
    (complete_inspection c7_idb 7 "0xinsp" 103 true "kayit" 90 (.ok "0xp")).1.interest = 9/2 ∧
    (complete_inspection c7_idb 7 "0xinsp" 103 true "kayit" 90 (.ok "0xp")).2.fraud_records.length = 1 ∧
    (validate_inspection_result 100 103 5).fraud_detected = false ∧
    (validate_inspection_result 100 103 5).difference_percent = 3 ∧
    (validate_inspection_result 100 103 5).severity = "none" := by
  with_unfolding_all decide

/-! ### C8: reward computation -/

/-- Initial store for the C8 scenarios: one registered user. -/
def c8_db0 : Db := ⟨[⟨W1, 2, false, 0⟩], [], []⟩

/-- C8 counterexample: a declaration of 0.25 kg plastic has rate sum 2.5,
but the computed (stored and credited) reward is `int(2.5) = 2`, not the
sum, so the claim's equation fails on non-integral sums. -/
theorem C8_counterexample_fractional_sum_truncated :
    (match create_declaration c8_db0 W1 (1/4) 0 0 0 0 "tok" 1 with
      | .ok (_, r) => (r : Rat)
      | .error _ => -1) = 2 ∧
    (1/4 : Rat) * REWARD_RATES "plastic" + 0 * REWARD_RATES "glass" +
      0 * REWARD_RATES "metal" + 0 * REWARD_RATES "paper" +
      0 * REWARD_RATES "electronic" = 5/2 ∧
    ((2 : Rat) ≠ 5/2) := by
  with_unfolding_all decide

/-- Store after creating the scenario declaration (2.5 kg plastic, 1.0 kg
glass). -/
def c8_db1 : Db :=
  match create_declaration c8_db0 W1 (5/2) 1 0 0 0 "tok8" 1 with
  | .ok (db, _) => db
  | .error _ => c8_db0

/-- Store after approving the scenario declaration once. -/
def c8_db2 : Db := (approve_declaration c8_db1 1 "0xadmin").2

/-- C8 amended: the computed reward is the truncation `int` of the rate sum
(which coincides with the sum whenever the sum is integral); the scenario
2.5 kg plastic and 1.0 kg glass computes exactly 37, approval credits
exactly 37, and a second approval is rejected leaving the balance at 37. -/
theorem C8_amended_truncated_sum_and_scenario :
    (match create_declaration c8_db0 W1 (5/2) 1 0 0 0 "tok8" 1 with
      | .ok (_, r) => r
      | .error _ => -1) = 37 ∧
    pyInt ((5/2 : Rat) * REWARD_RATES "plastic" + 1 * REWARD_RATES "glass") = 37 ∧
    (find_user c8_db2.users W1).map (fun u => u.pending_reward_balance) = some 37 ∧
    (approve_declaration c8_db2 1 "0xadmin").1.success = false ∧
    (approve_declaration c8_db2 1 "0xadmin").2 = c8_db2 := by
  with_unfolding_all decide

/-! ### C9: identity normalization across boundaries -/

/-- The EIP-55 example address in the lowercase form that declaration
creation and the reading-reward credit paths store. -/
def LOWER_ADDR : String := "0x5aaeb6053f3e94c9b9a09f33669435e7ef1beaed"

/-- The checksummed rendering of the same address used by the wallet and
appeal boundaries. -/
def CHECKSUM_ADDR : String := "0x5aAeb6053F3E94C9b9A09f33669435E7Ef1BeAed"

/-- C9 counterexample: the two normalizations in use disagree on the same
identity: declaration creation stores `pyLower`, while appeal resolution
and the wallet routes compare `normalize_wallet_address` (EIP-55 checksum),
and for this address the two renderings are different strings. -/
theorem C9_counterexample_two_normalizations_disagree :
    pyLower LOWER_ADDR = LOWER_ADDR ∧
    normalize_wallet_address LOWER_ADDR = some CHECKSUM_ADDR ∧
    CHECKSUM_ADDR ≠ LOWER_ADDR := by
  decide

/-- A store holding the user under the lowercase key, as the app.py
reading-reward credit path creates it, with an accrued balance of 50. -/
def c9_db : Db := ⟨[⟨LOWER_ADDR, 2, false, 50⟩], [], []⟩

/-- C9 amended: the boundaries do not share one normalization: declaration
creation and the app.py reading-reward credit paths store the lowercased
address, while auth login provisioning, the wallet routes and appeal
resolution use the EIP-55 checksummed form.  The two renderings coincide
for some addresses and differ for others; for this address (the EIP-55
example, where they differ) a user row stored under the lowercase key is
not found by the checksummed wallet-claim lookup: the claim of their
balance of 50 fails with a 404 and no state change. -/
theorem C9_amended_checksum_lookup_misses_lowercase_row :
    (claim_rewards c9_db LOWER_ADDR (.ok "0xtx")).1.success = false ∧
    (claim_rewards c9_db LOWER_ADDR (.ok "0xtx")).1.status_code = 404 ∧
    (claim_rewards c9_db LOWER_ADDR (.ok "0xtx")).2 = c9_db ∧
    (find_user c9_db.users (pyLower LOWER_ADDR)).map
      (fun u => u.pending_reward_balance) = some 50 := by
  decide

/-- Sanity vector: Keccak-256 of the empty message. -/
theorem keccak256_nil_vector :
    keccak256 [] =
      [0xc5, 0xd2, 0x46, 0x01, 0x86, 0xf7, 0x23, 0x3c, 0x92, 0x7e, 0x7d, 0xb2, 0xdc, 0xc7,
       0x03, 0xc0, 0xe5, 0x00, 0xb6, 0x53, 0xca, 0x82, 0x27, 0x3b, 0x7b, 0xfa, 0xd8, 0x04,
       0x5d, 0x85, 0xa4, 0x70] := by
  decide

/-- Sanity vector: the checksummed form documented in EIP-55. -/
theorem toChecksumAddress_eip55_vector :
    toChecksumAddress "0x5aaeb6053f3e94c9b9a09f33669435e7ef1beaed" =
      "0x5aAeb6053F3E94C9b9A09f33669435E7Ef1BeAed" := by
  decide

end EcoCivic
